import Mathlib

/-!
Shallow embedding of `src/python_salt_api_demo.py`, a rolling-maintenance
script for a fleet of Salt-managed nodes, together with theorems settling
the claims about its behaviour.

Modelling conventions:
* Python dictionaries whose iteration order matters are association lists.
* The Salt executor (`client.cmd`, the transport) is an external
  collaborator; its per-call responses are parameters of the embedded
  functions (a probe sequence, a status sequence, a ping result mapping).
* `raise Exception` / `exit(1)` become explicit outcome constructors.
* Unbounded `while` loops are embedded with explicit fuel; loops bounded
  by a decreasing counter recurse on the counter.
-/

namespace SaltDemo

/-- Python values as they occur inside per-state result dictionaries
(`result`, `comment`, ...). `PyVal.none` is Python `None`. -/
inductive PyVal where
  | bool (b : Bool)
  | str (s : String)
  | int (n : Int)
  | none
deriving DecidableEq, Repr

/-- One per-state dictionary such as `{'result': True, 'comment': '...'}`,
as an association list preserving Python dict iteration order. -/
abbrev StateEntry := List (String × PyVal)

/-- Python `d.get(k, None)`: `Option.none` models an absent key (the Python
default `None` is only distinguished from absence when the key is
present with value `None`, i.e. `some PyVal.none`). -/
def dictGet (d : StateEntry) (k : String) : Option PyVal :=
  (d.find? (fun p => p.1 == k)).map Prod.snd

/-- Python `x is True` on the result of `d.get(k, None)`: only the exact
boolean `True` passes. -/
def isExactlyTrue : Option PyVal → Bool
  | some (.bool true) => true
  | _ => false

/-- The per-minion payload stored under `SALT_RETURN_KEY`: either a
state-run mapping (state identifier to its result dictionary) or, when
the remote state failed to compile, a list of error strings. -/
inductive Payload where
  | plist (items : List String)
  | pmap (states : List (String × StateEntry))
deriving DecidableEq, Repr

/-- Return data of a state-run call: minion name to that minion's
payload. The uniform `ret_data[minion][SALT_RETURN_KEY]` indexing of the
source is folded in: the payload recorded here is the value under
`SALT_RETURN_KEY`. -/
abbrev RetData := List (String × Payload)

/-- Models the external library function `salt.utils.check_state_result`
(bound to `state_checker` at line 130 of the source): `False` for any
non-dict (list-shaped) payload and for an empty mapping; for a mapping,
`False` exactly when some state entry carries `'result': False`. -/
def check_state_result : Payload → Bool
  | .plist _ => false
  | .pmap [] => false
  | .pmap states =>
      states.all (fun sv => !(dictGet sv.2 "result" == some (.bool false)))

/-- Outcome of `check_salt_run_status`, with the diagnostic data the
source logs carried explicitly. `success` and `successWithWarning` both
map to the Python return value `True`; the two failure forms map to
`False`. -/
inductive CheckResult where
  | success
  | successWithWarning
  | compileFailure (minion : String) (fullData : RetData)
  | stateFailure (minion state : String) (status comment : Option PyVal)
deriving DecidableEq, Repr

/-- The boolean the Python function actually returns. -/
def CheckResult.toBool : CheckResult → Bool
  | .success => true
  | .successWithWarning => true
  | .compileFailure _ _ => false
  | .stateFailure _ _ _ _ => false

/-- The inner scan of `check_salt_run_status` (line 233-238): the first
state entry whose value under `key` is not exactly `True`. In the source
`key` is `SALT_RETURN_KEY` (`'ret'` or `'return'`), not `'result'`. -/
def firstFlaggedState (key : String) (states : List (String × StateEntry)) :
    Option (String × StateEntry) :=
  states.find? (fun sv => !(isExactlyTrue (dictGet sv.2 key)))

/-- The diagnosis loop of `check_salt_run_status` (lines 223-245),
entered only after the aggregate checker reported a failure: walk the
minions in order; a list-shaped payload is a compile failure reported
with the full return data; otherwise report the first flagged state with
its `result` and `comment` values; if nothing is found anywhere, fall
through to the lenient warning-and-success branch. -/
def diagnose_failure (key : String) (full : RetData) : RetData → CheckResult
  | [] => .successWithWarning
  | (m, .plist _) :: _ => .compileFailure m full
  | (m, .pmap states) :: rest =>
      match firstFlaggedState key states with
      | some sv =>
          .stateFailure m sv.1 (dictGet sv.2 "result") (dictGet sv.2 "comment")
      | Option.none => diagnose_failure key full rest

/-- Function `check_salt_run_status` (lines 191-245): succeed when the aggregate
checker passes every minion; otherwise diagnose. `key` is the value of
`SALT_RETURN_KEY` as used in the per-state scan at line 234. -/
def check_salt_run_status (key : String) (ret_data : RetData) : CheckResult :=
  if ret_data.all (fun mp => check_state_result mp.2) then .success
  else diagnose_failure key ret_data ret_data

/-- Result of one `status.uptime` probe inside `restart_host`'s poll
loop: either the no-response case of line 357-358 (ssh mode with nonzero
retcode, or a `False` payload) or a response carrying the `seconds`
field. -/
inductive ProbeResult where
  | noResponse
  | up (seconds : Int)
deriving DecidableEq, Repr

/-- Outcome of `restart_host`'s poll loop, counting the probes issued:
`rebooted n` is the `return` at line 378 on the n-th probe, `timedOut n`
is the `raise Exception` at line 387 after n probes. -/
inductive RebootOutcome where
  | rebooted (polls : Nat)
  | timedOut (polls : Nat)
deriving DecidableEq, Repr

/-- Constant `timeout = 300` of `restart_host` (line 337). -/
def reboot_timeout : Int := 300

/-- Constant `period = 10` of `restart_host` (line 338). -/
def reboot_period : Int := 10

/-- The `while timeout > 0` poll loop of `restart_host` (lines 350-387),
fuelled because the source loop need not terminate. `probe k` is the
executor's response to the k-th `status.uptime` call, `k` counts probes
already issued, `timeout` is the remaining budget. Faithful to the
source: the no-response branch decrements `timeout` by `period`; the
responding branch returns when the observed uptime is strictly below
`baseline` and otherwise only sleeps, leaving `timeout` unchanged. -/
def restart_host_loop (baseline : Int) (probe : Nat → ProbeResult) :
    Nat → Nat → Int → Option RebootOutcome
  | 0, _, _ => Option.none
  | fuel + 1, k, timeout =>
      if timeout > 0 then
        match probe k with
        | .noResponse =>
            restart_host_loop baseline probe fuel (k + 1) (timeout - reboot_period)
        | .up s =>
            if s < baseline then some (.rebooted (k + 1))
            else restart_host_loop baseline probe fuel (k + 1) timeout
      else some (.timedOut k)

/-- Function `restart_host` from the captured uptime baseline onward: run the
poll loop with the full `timeout` budget. -/
def restart_host (baseline : Int) (probe : Nat → ProbeResult) (fuel : Nat) :
    Option RebootOutcome :=
  restart_host_loop baseline probe fuel 0 reboot_timeout

/-- Externally visible events of `restart_service` (lines 267-292), in
program order: the `service.restart` command, the `time.sleep` calls,
and the `service.status` check with the boolean the executor returned. -/
inductive ServiceEvent where
  | restartCmd
  | sleepFor (seconds : Nat)
  | statusCheck (ok : Bool)
deriving DecidableEq, Repr

/-- Outcome of `restart_service`, counting full restart attempts:
`ok n` is the normal return after the n-th status check came back true,
`exhausted n` is the bare `raise Exception` at line 288 after the n-th
failed check. -/
inductive ServiceOutcome where
  | ok (attempts : Nat)
  | exhausted (attempts : Nat)
deriving DecidableEq, Repr

/-- The `while not success` loop of `restart_service`, recursing on the
`tries` counter (initially 3, decremented on every false status check;
the decremented counter reaching 0 raises at once, before any backoff).
`status k` is the executor's answer to the k-th `service.status` call;
the event trace is accumulated in `acc`. -/
def restart_service_loop (status : Nat → Bool) :
    Nat → Nat → List ServiceEvent → List ServiceEvent × ServiceOutcome
  | 0, k, acc => (acc, .exhausted k)
  | tries + 1, k, acc =>
      if status k then
        (acc ++ [.restartCmd, .sleepFor 2, .statusCheck (status k)], .ok (k + 1))
      else if tries = 0 then
        (acc ++ [.restartCmd, .sleepFor 2, .statusCheck (status k)], .exhausted (k + 1))
      else
        restart_service_loop status tries (k + 1)
          (acc ++ [.restartCmd, .sleepFor 2, .statusCheck (status k)] ++ [.sleepFor 5])

/-- Function `restart_service` for one node: local counter `tries = 3`. -/
def restart_service (status : Nat → Bool) : List ServiceEvent × ServiceOutcome :=
  restart_service_loop status 3 0 []

/-- Result of `ping_all_nodes` (lines 310-327): the Python function
returns `True` when no minion's ping value equals `False`, and the list
of failed minions otherwise. -/
inductive PingResult where
  | allUp
  | failed (minions : List String)
deriving DecidableEq, Repr

/-- Function `ping_all_nodes`: `ret` is the executor's `test.ping` response for
the targeted minions (minion name to its boolean value); collect, in
iteration order, the minions whose value equals `False`. -/
def ping_all_nodes (ret : List (String × Bool)) : PingResult :=
  let failed := (ret.filter (fun mv => mv.2 == false)).map Prod.fst
  if failed.length > 0 then .failed failed else .allUp

/-- Python-level error signals relevant to the embedded control flow:
`exc` is any plain `Exception` (raised, or re-raised by a handler),
`nameError` is the `NameError` raised when an undefined name is
evaluated. Both are subclasses of `Exception`, hence both are caught by
the `except Exception` clause of the per-minion retry loop. -/
inductive PyError where
  | exc
  | nameError
deriving DecidableEq, Repr

/-- The name `wait_for_es_service` is called at lines 445 and 452 of the source
but is defined nowhere in the program (no `def`, no import binds it), so
evaluating the name raises `NameError` at call time. -/
def wait_for_es_service : Except PyError Unit := .error .nameError

/-- What one iteration of the per-minion `while not success` body in
`main` (lines 426-465) looks like from the retry loop: the body
completed and set `success = True`; or it raised an `Exception`, caught
at line 456; or it called `exit(1)` (a `SystemExit`, which is not an
`Exception` in Python 2.6 and escapes the `except Exception` clause,
terminating the process). -/
inductive AttemptOutcome where
  | ok
  | exc
  | exits
deriving DecidableEq, Repr

/-- Result of the retry loop for one minion, counting how many times the
attempt body was entered: `succeeded n` means the n-th attempt set
`success`; `exited n` means the process terminated with exit status 1
during or right after the n-th attempt. -/
inductive NodeResult where
  | succeeded (invocations : Nat)
  | exited (invocations : Nat)
deriving DecidableEq, Repr

/-- Attempts the retry loop charged for a minion. -/
def NodeResult.invocations : NodeResult → Nat
  | .succeeded n => n
  | .exited n => n

/-- The per-minion retry loop of `main` (lines 424-465), recursing on
the `tries` counter (initially 3): a successful attempt ends the loop; a
process-exiting attempt ends the run; a caught `Exception` decrements
`tries`, and `exit(1)` fires when the decremented counter is 0.
`attempt k` is the outcome of the k-th attempt body. -/
def minion_retry_loop (attempt : Nat → AttemptOutcome) :
    Nat → Nat → NodeResult
  | 0, k => .exited k
  | tries + 1, k =>
      match attempt (k) with
      | .ok => .succeeded (k + 1)
      | .exits => .exited (k + 1)
      | .exc =>
          if tries = 0 then .exited (k + 1)
          else minion_retry_loop attempt tries (k + 1)

/-- Aggregate result of the fleet loop: all minions processed, or the
process terminated with the given exit status. -/
inductive RunOutcome where
  | finished
  | exitFailure (code : Nat)
deriving DecidableEq, Repr

/-- The `for minion in minions` loop of `main` (lines 422-465):
process minions strictly in order, each through the retry loop with a
fresh budget of 3; record, per minion actually worked on, how many
attempts it consumed; a minion whose retry loop exits halts the run with
status 1 and no later minion is ever attempted. `attempt m k` is the
outcome of minion m's k-th attempt body. -/
def fleet_loop (attempt : String → Nat → AttemptOutcome) :
    List String → List (String × Nat) × RunOutcome
  | [] => ([], .finished)
  | m :: rest =>
      match minion_retry_loop (attempt m) 3 0 with
      | .succeeded n =>
          let tail := fleet_loop attempt rest
          ((m, n) :: tail.1, tail.2)
      | .exited n => ([(m, n)], .exitFailure 1)

/-- Function `main` after the root/test-mode preamble (lines 410-465): the
connectivity gate over the whole target set, then the fleet loop. If any
minion's ping value is `False`, log and `exit(1)` before any attempt
body runs (the returned attempt list is empty). `pingRet` is the
executor's `test.ping` response for the supplied minions. -/
def main_run (pingRet : List (String × Bool))
    (attempt : String → Nat → AttemptOutcome) (minions : List String) :
    List (String × Nat) × RunOutcome :=
  match ping_all_nodes pingRet with
  | .failed _ => ([], .exitFailure 1)
  | .allUp => fleet_loop attempt minions

/-- The attempt body for action `reboot_host` (lines 443-445):
`restart_host(minion)` — whose outcome, abstracted to raised-or-returned,
is `restartOutcome` — then `wait_for_es_service(minion)`. -/
def reboot_host_attempt (restartOutcome : Except PyError Unit) :
    Except PyError Unit := do
  restartOutcome
  wait_for_es_service

/-- The attempt body for action `update_system` (lines 448-452):
`update_system(minion)`, then `restart_host(minion)` when the `-r` flag
is set, then `wait_for_es_service(minion)`. The first two steps'
outcomes are abstracted to raised-or-returned. -/
def update_system_attempt (updateOutcome : Except PyError Unit)
    (rebootFlag : Bool) (restartOutcome : Except PyError Unit) :
    Except PyError Unit := do
  updateOutcome
  if rebootFlag then restartOutcome else pure ()
  wait_for_es_service

/-- How an attempt body that only raises `Exception`s (never `exit`s)
appears to the retry loop. -/
def toAttemptOutcome : Except PyError Unit → AttemptOutcome
  | .ok _ => .ok
  | .error _ => .exc

/-- The attempt body for action `update_configs` (lines 430-436): run
`update_configs(minion)` (outcome abstracted to `configOutcome`), then
`restart_service(minion)` driven by the `status` responses; the whole
pair sits in an inner `try` whose `except Exception` handler calls
`exit(1)` directly, so any failure terminates the process instead of
raising to the retry loop. Returns the outcome as the retry loop sees it
together with the number of restart attempts performed. -/
def update_configs_attempt (configOutcome : Except PyError Unit)
    (status : Nat → Bool) : AttemptOutcome × Nat :=
  match configOutcome with
  | .error _ => (.exits, 0)
  | .ok _ =>
      match restart_service status with
      | (_, .ok n) => (.ok, n)
      | (_, .exhausted n) => (.exits, n)

/-- Function `update_configs` (lines 247-264): apply the configuration state and
re-raise when `check_salt_run_status` reports failure. `key` is
`SALT_RETURN_KEY`; `output` is the executor's state-run response. -/
def update_configs (key : String) (output : RetData) : Except PyError Unit :=
  if (check_salt_run_status key output).toBool then .ok () else .error .exc

/-- Function `update_system` (lines 294-308): run the package upgrade and
re-raise when `check_salt_run_status` reports failure. -/
def update_system (key : String) (output : RetData) : Except PyError Unit :=
  if (check_salt_run_status key output).toBool then .ok () else .error .exc

/-!
## Helper lemmas shared between claims
-/

/-- Attempts counted by a `ServiceOutcome`. -/
def ServiceOutcome.attempts : ServiceOutcome → Nat
  | .ok n => n
  | .exhausted n => n

theorem restart_service_loop_attempts_le (status : Nat → Bool) :
    ∀ (tries k : Nat) (acc : List ServiceEvent),
      (restart_service_loop status tries k acc).2.attempts ≤ k + tries := by
  intro tries
  induction tries with
  | zero =>
      intro k acc
      simp only [restart_service_loop, ServiceOutcome.attempts]
      omega
  | succ t ih =>
      intro k acc
      simp only [restart_service_loop]
      split
      · show (ServiceOutcome.ok (k + 1)).attempts ≤ k + (t + 1)
        simp only [ServiceOutcome.attempts]
        omega
      · split
        · show (ServiceOutcome.exhausted (k + 1)).attempts ≤ k + (t + 1)
          simp only [ServiceOutcome.attempts]
          omega
        · exact le_trans (ih (k + 1) _) (by omega)

theorem minion_retry_loop_invocations_le (B : Nat → AttemptOutcome) :
    ∀ (tries k : Nat),
      (minion_retry_loop B tries k).invocations ≤ k + tries := by
  intro tries
  induction tries with
  | zero =>
      intro k
      simp only [minion_retry_loop, NodeResult.invocations]
      omega
  | succ t ih =>
      intro k
      simp only [minion_retry_loop]
      split
      · show (NodeResult.succeeded (k + 1)).invocations ≤ k + (t + 1)
        simp only [NodeResult.invocations]
        omega
      · show (NodeResult.exited (k + 1)).invocations ≤ k + (t + 1)
        simp only [NodeResult.invocations]
        omega
      · split
        · show (NodeResult.exited (k + 1)).invocations ≤ k + (t + 1)
          simp only [NodeResult.invocations]
          omega
        · exact le_trans (ih (k + 1)) (by omega)

theorem minion_retry_loop_all_exc (B : Nat → AttemptOutcome)
    (h : ∀ k, B k = .exc) :
    ∀ (tries k : Nat), tries ≠ 0 →
      minion_retry_loop B tries k = .exited (k + tries) := by
  intro tries
  induction tries with
  | zero => intro k hk; exact absurd rfl hk
  | succ t ih =>
      intro k _
      simp only [minion_retry_loop, h k]
      by_cases ht : t = 0
      · subst ht; simp
      · simp only [if_neg ht, ih (k + 1) ht]
        congr 1
        omega

theorem fleet_loop_first_exited (A : String → Nat → AttemptOutcome)
    (m : String) (rest : List String) (n : Nat)
    (h : minion_retry_loop (A m) 3 0 = .exited n) :
    fleet_loop A (m :: rest) = ([(m, n)], .exitFailure 1) := by
  simp [fleet_loop, h]

/-!
## Claim theorems
-/

/-- The probe sequence of the C5 scenario: uptime 1205, then 1210, then
50 on every later probe. -/
def probe_1205_1210_50 : Nat → ProbeResult
  | 0 => .up 1205
  | 1 => .up 1210
  | _ => .up 50

/-- C1: the claim says the responding-but-not-yet-rebooted case still
decrements the timeout budget, so that with baseline 1200 and every
poll returning uptime 1205 the waiter stops with RebootTimeout after 30
polls. The code does not: the branch at lines 380-383 sleeps without
touching `timeout`, so on that input the budget stays at its full 300
and the poll loop never terminates — for every amount of fuel the run
is still in the loop (result `Option.none`), never a timeout and never a
confirmation. -/
theorem restart_host_stale_uptime_polls_forever :
    ∀ (fuel k : Nat),
      restart_host_loop 1200 (fun _ => ProbeResult.up 1205) fuel k 300
        = Option.none := by
  intro fuel
  induction fuel with
  | zero => intro k; rfl
  | succ n ih =>
      intro k
      simp only [restart_host_loop]
      norm_num
      exact ih (k + 1)

/-- C5: the reboot waiter confirms a reboot only on a probe whose
observed uptime is strictly below the pre-reboot baseline (an equal or
larger uptime is never accepted), and in the concrete scenario with
baseline 1200 and polls 1205, 1210, 50 the confirmation comes exactly
at the third poll. -/
theorem restart_host_confirms_only_strictly_smaller_uptime :
    (∀ (baseline : Int) (probe : Nat → ProbeResult) (fuel k : Nat)
        (t : Int) (n : Nat),
        restart_host_loop baseline probe fuel k t = some (.rebooted n) →
        ∃ s, probe (n - 1) = .up s ∧ s < baseline)
    ∧ restart_host 1200 probe_1205_1210_50 5 = some (.rebooted 3) := by
  constructor
  · intro baseline probe fuel
    induction fuel with
    | zero => intro k t n h; exact absurd h (by simp [restart_host_loop])
    | succ f ih =>
        intro k t n h
        simp only [restart_host_loop] at h
        by_cases ht : t > 0
        · rw [if_pos ht] at h
          cases hp : probe k with
          | noResponse =>
              simp only [hp] at h
              exact ih (k + 1) (t - reboot_period) n h
          | up s =>
              simp only [hp] at h
              by_cases hs : s < baseline
              · rw [if_pos hs] at h
                have hn : n = k + 1 := by
                  cases h
                  rfl
                subst hn
                exact ⟨s, by simpa using hp, hs⟩
              · rw [if_neg hs] at h
                exact ih (k + 1) t n h
        · rw [if_neg ht] at h
          cases h
  · rfl

/-- C5 witness: the general statement applied to the concrete scenario;
the confirming third poll indeed observed uptime 50 < 1200. -/
theorem restart_host_confirms_only_strictly_smaller_uptime_witness :
    ∃ s, probe_1205_1210_50 2 = ProbeResult.up s ∧ s < 1200 :=
  restart_host_confirms_only_strictly_smaller_uptime.1 1200 probe_1205_1210_50
    5 0 300 3 restart_host_confirms_only_strictly_smaller_uptime.2

/-- C2: whatever the preceding steps of each attempt do (outcomes
abstracted by `preR`, `preU`, `preU2`, the reboot flag by `flag`), both
the `reboot_host` and the `update_system` attempt bodies always raise —
either a step raises first, or control reaches the undefined name
`wait_for_es_service` and raises `NameError` — so, the attempts all
terminating, no node can complete these actions and the fleet run halts
with exit status 1 after exactly 3 attempts on the first node, later
nodes never reached. -/
theorem undefined_wait_for_es_service_always_fails_run :
    ∀ (preR preU preU2 : Nat → Except PyError Unit) (flag : Nat → Bool)
      (m : String) (rest : List String),
      (∀ k, ∃ e, reboot_host_attempt (preR k) = Except.error e)
      ∧ (∀ k, ∃ e,
          update_system_attempt (preU k) (flag k) (preU2 k) = Except.error e)
      ∧ fleet_loop
          (fun _ k => toAttemptOutcome (reboot_host_attempt (preR k)))
          (m :: rest)
          = ([(m, 3)], .exitFailure 1)
      ∧ fleet_loop
          (fun _ k =>
            toAttemptOutcome (update_system_attempt (preU k) (flag k) (preU2 k)))
          (m :: rest)
          = ([(m, 3)], .exitFailure 1) := by
  intro preR preU preU2 flag m rest
  have hR : ∀ (x : Except PyError Unit), ∃ e,
      reboot_host_attempt x = Except.error e := by
    intro x
    cases x with
    | ok u => exact ⟨.nameError, rfl⟩
    | error e => exact ⟨e, rfl⟩
  have hU : ∀ (x y : Except PyError Unit) (b : Bool), ∃ e,
      update_system_attempt x b y = Except.error e := by
    intro x y b
    cases x with
    | ok u =>
        cases b with
        | false => exact ⟨.nameError, rfl⟩
        | true =>
            cases y with
            | ok v => exact ⟨.nameError, rfl⟩
            | error e => exact ⟨e, rfl⟩
    | error e => exact ⟨e, rfl⟩
  refine ⟨fun k => hR (preR k), fun k => hU (preU k) (preU2 k) (flag k), ?_, ?_⟩
  · refine fleet_loop_first_exited _ m rest 3 ?_
    refine minion_retry_loop_all_exc _ ?_ 3 0 (by omega)
    intro k
    obtain ⟨e, he⟩ := hR (preR k)
    simp [toAttemptOutcome, he]
  · refine fleet_loop_first_exited _ m rest 3 ?_
    refine minion_retry_loop_all_exc _ ?_ 3 0 (by omega)
    intro k
    obtain ⟨e, he⟩ := hU (preU k) (preU2 k) (flag k)
    simp [toAttemptOutcome, he]

/-- C3 counterexample: the claim says an UpdateConfigs handler failure
is retried under the fleet budget of 3, allowing up to 9 restart
attempts. Concretely, with a failing configuration run the fleet loop
performs exactly one attempt on the node and the process exits with
status 1 (no second fleet-level attempt); and in the scenario that
maximises restarts (configuration succeeds, every status check false)
exactly 3 restart attempts happen before the process exits, again after
a single fleet-level attempt — never 9. -/
theorem update_configs_no_fleet_retry_counterexample :
    update_configs_attempt (Except.error PyError.exc) (fun _ => true)
        = (.exits, 0)
    ∧ fleet_loop
        (fun _ _ =>
          (update_configs_attempt (Except.error PyError.exc) (fun _ => true)).1)
        ["node-01"]
        = ([("node-01", 1)], .exitFailure 1)
    ∧ update_configs_attempt (Except.ok ()) (fun _ => false) = (.exits, 3)
    ∧ fleet_loop
        (fun _ _ =>
          (update_configs_attempt (Except.ok ()) (fun _ => false)).1)
        ["node-01"]
        = ([("node-01", 1)], .exitFailure 1) := by
  refine ⟨rfl, rfl, rfl, rfl⟩

/-- C3 as amended: a failure in the UpdateConfigs attempt (failed
configuration state run or exhausted service restart) hits the inner
`except` handler, which calls `exit(1)` directly; `SystemExit` escapes
the retry loop's `except Exception`, so the failure is never retried
under the fleet budget — the fleet loop charges exactly one attempt to
the node and the run halts with status 1 — and the restart attempts of
one UpdateConfigs attempt never exceed RestartService's local counter
of 3. -/
theorem update_configs_failure_exits_without_fleet_retry :
    ∀ (c : Except PyError Unit) (status : Nat → Bool) (m : String)
      (rest : List String),
      (update_configs_attempt c status).2 ≤ 3
      ∧ ((update_configs_attempt c status).1 = .exits →
          fleet_loop (fun _ _ => (update_configs_attempt c status).1)
            (m :: rest)
            = ([(m, 1)], .exitFailure 1)) := by
  intro c status m rest
  constructor
  · cases c with
    | error e => simp [update_configs_attempt]
    | ok u =>
        have hle : (restart_service status).2.attempts ≤ 3 := by
          have h0 := restart_service_loop_attempts_le status 3 0 []
          simpa [restart_service] using h0
        rcases hrs : restart_service status with ⟨tr, out⟩
        rw [hrs] at hle
        cases out with
        | ok n =>
            simp only [update_configs_attempt, hrs]
            simpa [ServiceOutcome.attempts] using hle
        | exhausted n =>
            simp only [update_configs_attempt, hrs]
            simpa [ServiceOutcome.attempts] using hle
  · intro hx
    rw [hx]
    refine fleet_loop_first_exited _ m rest 1 ?_
    rfl

/-- C3 witness for the amended claim: with a successful configuration
run but a service that never reports running, the run exits with status
1 after a single fleet-level attempt on the first node. -/
theorem update_configs_failure_exits_without_fleet_retry_witness :
    fleet_loop
        (fun _ _ =>
          (update_configs_attempt (Except.ok ()) (fun _ => false)).1)
        ["node-01"]
        = ([("node-01", 1)], .exitFailure 1) :=
  (update_configs_failure_exits_without_fleet_retry (Except.ok ())
    (fun _ => false) "node-01" []).2 (by decide)

/-- C6: the per-minion retry loop never enters a 4th attempt (with
budget 3 the attempts charged to a node never exceed 3, the counter
being a natural number that is only decremented while nonzero), and for
a first node every one of whose attempts raises an `Exception`, the loop
runs the attempt body exactly 3 times, then the run halts with exit
status 1 and no later node in the supplied order is ever attempted. -/
theorem retry_budget_exhausts_after_three_attempts :
    (∀ (B : Nat → AttemptOutcome), (minion_retry_loop B 3 0).invocations ≤ 3)
    ∧ ∀ (A : String → Nat → AttemptOutcome) (m : String) (rest : List String),
        (∀ k, A m k = .exc) →
        minion_retry_loop (A m) 3 0 = .exited 3
        ∧ fleet_loop A (m :: rest) = ([(m, 3)], .exitFailure 1) := by
  constructor
  · intro B
    simpa using minion_retry_loop_invocations_le B 3 0
  · intro A m rest h
    have h3 : minion_retry_loop (A m) 3 0 = .exited 3 := by
      simpa using minion_retry_loop_all_exc (A m) h 3 0 (by omega)
    exact ⟨h3, fleet_loop_first_exited A m rest 3 h3⟩

/-- C6 witness: the always-failing attempt on the first of two nodes —
exactly 3 attempts, exit status 1, the second node untouched. -/
theorem retry_budget_exhausts_after_three_attempts_witness :
    minion_retry_loop (fun _ => AttemptOutcome.exc) 3 0 = .exited 3
    ∧ fleet_loop (fun _ _ => AttemptOutcome.exc) ["node-01", "node-02"]
        = ([("node-01", 3)], .exitFailure 1) :=
  retry_budget_exhausts_after_three_attempts.2 (fun _ _ => .exc)
    "node-01" ["node-02"] (fun _ => rfl)

/-- C4: the claim says the reported state is one whose `result` flag is
not exactly `True`. On the concrete failed run below (the aggregate
checker does report failure, because `state_b` carries
`result: False`), the code instead names `state_a` — whose `result`
flag IS exactly `True` — because line 234 consults
`values.get(SALT_RETURN_KEY)` (here `'ret'`, absent from every state
entry) instead of `values.get('result')`, so the very first state in
iteration order is flagged no matter what its success flag says. -/
theorem check_salt_run_status_flags_first_state_regardless :
    check_state_result (Payload.pmap
        [("state_a", [("result", PyVal.bool true), ("comment", PyVal.str "ok")]),
         ("state_b", [("result", PyVal.bool false), ("comment", PyVal.str "bad")])])
      = false
    ∧ isExactlyTrue (dictGet
        [("result", PyVal.bool true), ("comment", PyVal.str "ok")] "result")
      = true
    ∧ check_salt_run_status "ret"
        [("minion-01", Payload.pmap
          [("state_a",
            [("result", PyVal.bool true), ("comment", PyVal.str "ok")]),
           ("state_b",
            [("result", PyVal.bool false), ("comment", PyVal.str "bad")])])]
      = CheckResult.stateFailure "minion-01" "state_a"
          (some (PyVal.bool true)) (some (PyVal.str "ok")) := by
  refine ⟨rfl, rfl, rfl⟩

/-- C7: when some target's ping value is `False`, `ping_all_nodes`
returns exactly the non-responding targets (membership in the returned
list coincides with having pinged `False`), `main` exits with status 1,
and no attempt body runs on any node (the attempt record of the run is
empty); concretely, targets A, B, C with only B down yield failure set
{B}. -/
theorem connectivity_gate_blocks_all_actions :
    (∀ (ret : List (String × Bool)),
        (∃ p ∈ ret, p.2 = false) →
        ∃ l, ping_all_nodes ret = .failed l
          ∧ ∀ x, x ∈ l ↔ ∃ p ∈ ret, p.1 = x ∧ p.2 = false)
    ∧ (∀ (ret : List (String × Bool)) (A : String → Nat → AttemptOutcome)
          (minions : List String),
        (∃ p ∈ ret, p.2 = false) →
        main_run ret A minions = ([], .exitFailure 1))
    ∧ ping_all_nodes [("A", true), ("B", false), ("C", true)]
        = .failed ["B"] := by
  have hlen : ∀ (ret : List (String × Bool)), (∃ p ∈ ret, p.2 = false) →
      ((ret.filter (fun mv => mv.2 == false)).map Prod.fst).length > 0 := by
    rintro ret ⟨p, hp, hpf⟩
    have hm : p ∈ ret.filter (fun mv => mv.2 == false) :=
      List.mem_filter.mpr ⟨hp, by simp [hpf]⟩
    have := List.length_pos_of_mem hm
    simpa using this
  have hping : ∀ (ret : List (String × Bool)), (∃ p ∈ ret, p.2 = false) →
      ping_all_nodes ret
        = .failed ((ret.filter (fun mv => mv.2 == false)).map Prod.fst) := by
    intro ret h
    simp only [ping_all_nodes]
    rw [if_pos (hlen ret h)]
  refine ⟨?_, ?_, ?_⟩
  · intro ret h
    refine ⟨(ret.filter (fun mv => mv.2 == false)).map Prod.fst,
      hping ret h, ?_⟩
    intro x
    simp only [List.mem_map, List.mem_filter]
    constructor
    · rintro ⟨p, ⟨hp, hpf⟩, hx⟩
      exact ⟨p, hp, hx, by simpa using hpf⟩
    · rintro ⟨p, hp, hx, hpf⟩
      exact ⟨p, ⟨hp, by simp [hpf]⟩, hx⟩
  · intro ret A minions h
    simp [main_run, hping ret h]
  · rfl

/-- C7 witness: targets A, B, C with only B down — the gate fires, no
attempt body is ever entered, the run exits with status 1. -/
theorem connectivity_gate_blocks_all_actions_witness :
    main_run [("A", true), ("B", false), ("C", true)]
        (fun _ _ => AttemptOutcome.ok) ["A", "B", "C"]
      = ([], RunOutcome.exitFailure 1) :=
  connectivity_gate_blocks_all_actions.2.1
    [("A", true), ("B", false), ("C", true)]
    (fun _ _ => AttemptOutcome.ok) ["A", "B", "C"]
    ⟨("B", false), by simp, rfl⟩

/-- C8: a list-shaped payload for the first target is classified as a
compile failure whatever the list contains and whatever follows it: the
aggregate checker cannot pass it, the diagnosis loop returns at the
list branch reporting the whole return data, and no per-state scan of
that payload happens (the result does not depend on `items`). -/
theorem list_payload_always_compile_failure :
    ∀ (key minion : String) (items : List String) (rest : RetData),
      check_salt_run_status key ((minion, Payload.plist items) :: rest)
        = .compileFailure minion ((minion, Payload.plist items) :: rest) := by
  intro key minion items rest
  simp only [check_salt_run_status]
  rw [if_neg (by simp [check_state_result])]
  simp [diagnose_failure]

/-- C9: when the aggregate checker reports a failed run but the
diagnosis loop finds neither a list-shaped payload nor a flagged state,
`check_salt_run_status` returns success through the warning branch; and
this is the sole downgrade in the embedded program — any other success
of `check_salt_run_status` means the aggregate checker passed, the
`update_configs` and `update_system` handlers re-raise whenever the
interpreter reports failure, and `restart_service` raises rather than
succeed when every status check is false. -/
theorem lenient_fallback_sole_success_downgrade :
    (∀ (key : String) (ret : RetData),
        ¬(ret.all (fun mp => check_state_result mp.2) = true) →
        (∀ mp ∈ ret, ∃ states, mp.2 = Payload.pmap states
            ∧ firstFlaggedState key states = Option.none) →
        check_salt_run_status key ret = .successWithWarning)
    ∧ (∀ (key : String) (ret : RetData),
        (check_salt_run_status key ret).toBool = true →
        ret.all (fun mp => check_state_result mp.2) = true
          ∨ check_salt_run_status key ret = .successWithWarning)
    ∧ (∀ (key : String) (out : RetData),
        (check_salt_run_status key out).toBool = false →
        update_configs key out = Except.error PyError.exc)
    ∧ (∀ (key : String) (out : RetData),
        (check_salt_run_status key out).toBool = false →
        update_system key out = Except.error PyError.exc)
    ∧ (∀ (status : Nat → Bool), (∀ k, status k = false) →
        (restart_service status).2 = ServiceOutcome.exhausted 3) := by
  have diag : ∀ (key : String) (full l : RetData),
      (∀ mp ∈ l, ∃ states, mp.2 = Payload.pmap states
          ∧ firstFlaggedState key states = Option.none) →
      diagnose_failure key full l = .successWithWarning := by
    intro key full l
    induction l with
    | nil => intro _; rfl
    | cons hd tl ih =>
        intro h
        obtain ⟨states, hp, hf⟩ := h hd (by simp)
        rcases hd with ⟨m, p⟩
        simp only at hp
        subst hp
        simp only [diagnose_failure, hf]
        exact ih (fun mp hmp => h mp (by simp [hmp]))
  have diagBool : ∀ (key : String) (full l : RetData),
      (diagnose_failure key full l).toBool = true →
      diagnose_failure key full l = .successWithWarning := by
    intro key full l
    induction l with
    | nil => intro _; rfl
    | cons hd tl ih =>
        rcases hd with ⟨m, p⟩
        cases p with
        | plist items =>
            intro h
            simp [diagnose_failure, CheckResult.toBool] at h
        | pmap states =>
            cases hf : firstFlaggedState key states with
            | some sv =>
                intro h
                simp [diagnose_failure, hf, CheckResult.toBool] at h
            | none =>
                intro h
                simp only [diagnose_failure, hf] at h ⊢
                exact ih h
  refine ⟨?_, ?_, ?_, ?_, ?_⟩
  · intro key ret hna hall
    simp only [check_salt_run_status]
    rw [if_neg hna]
    exact diag key ret ret hall
  · intro key ret htb
    by_cases hall : ret.all (fun mp => check_state_result mp.2) = true
    · exact Or.inl hall
    · right
      simp only [check_salt_run_status] at htb ⊢
      rw [if_neg hall] at htb ⊢
      exact diagBool key ret ret htb
  · intro key out h
    simp only [update_configs]
    rw [if_neg (by simp [h])]
  · intro key out h
    simp only [update_system]
    rw [if_neg (by simp [h])]
  · intro status h
    simp [restart_service, restart_service_loop, h 0, h 1, h 2]

/-- C9 witness: a run whose payload is an empty mapping — the aggregate
checker reports failure, the scan finds nothing, and the interpreter
returns success via the warning branch. -/
theorem lenient_fallback_sole_success_downgrade_witness :
    check_salt_run_status "ret" [("minion-01", Payload.pmap [])]
      = CheckResult.successWithWarning :=
  lenient_fallback_sole_success_downgrade.1 "ret"
    [("minion-01", Payload.pmap [])]
    (by decide)
    (by
      intro mp hmp
      simp only [List.mem_singleton] at hmp
      subst hmp
      exact ⟨[], rfl, rfl⟩)

/-- C10: function `restart_service` performs restart, a 2-unit wait, then a
status check (the first three events of every run); it returns normally
at the first true status check; every false check decrements the local
3-attempt counter and is followed by a 5-unit backoff before the full
sequence is re-issued; the third false check exhausts the counter and
raises at once (no further backoff event). -/
theorem restart_service_restart_wait_check_protocol :
    ∀ (status : Nat → Bool),
      (restart_service status).1.take 3
          = [.restartCmd, .sleepFor 2, .statusCheck (status 0)]
      ∧ (status 0 = true →
          restart_service status
            = ([.restartCmd, .sleepFor 2, .statusCheck true], .ok 1))
      ∧ (status 0 = false → status 1 = true →
          restart_service status
            = ([.restartCmd, .sleepFor 2, .statusCheck false, .sleepFor 5,
                .restartCmd, .sleepFor 2, .statusCheck true], .ok 2))
      ∧ (status 0 = false → status 1 = false → status 2 = true →
          restart_service status
            = ([.restartCmd, .sleepFor 2, .statusCheck false, .sleepFor 5,
                .restartCmd, .sleepFor 2, .statusCheck false, .sleepFor 5,
                .restartCmd, .sleepFor 2, .statusCheck true], .ok 3))
      ∧ (status 0 = false → status 1 = false → status 2 = false →
          restart_service status
            = ([.restartCmd, .sleepFor 2, .statusCheck false, .sleepFor 5,
                .restartCmd, .sleepFor 2, .statusCheck false, .sleepFor 5,
                .restartCmd, .sleepFor 2, .statusCheck false],
               .exhausted 3)) := by
  intro status
  refine ⟨?_, ?_, ?_, ?_, ?_⟩
  · cases h0 : status 0 with
    | true => simp [restart_service, restart_service_loop, h0]
    | false =>
        cases h1 : status 1 with
        | true => simp [restart_service, restart_service_loop, h0, h1]
        | false =>
            cases h2 : status 2 with
            | true => simp [restart_service, restart_service_loop, h0, h1, h2]
            | false => simp [restart_service, restart_service_loop, h0, h1, h2]
  · intro h0
    simp [restart_service, restart_service_loop, h0]
  · intro h0 h1
    simp [restart_service, restart_service_loop, h0, h1]
  · intro h0 h1 h2
    simp [restart_service, restart_service_loop, h0, h1, h2]
  · intro h0 h1 h2
    simp [restart_service, restart_service_loop, h0, h1, h2]

/-- C10 witness: a service that only reports running on the third
check — two full restart-wait-check-backoff rounds, then the normal
return on the third check. -/
theorem restart_service_restart_wait_check_protocol_witness :
    restart_service (fun k => k == 2)
      = ([.restartCmd, .sleepFor 2, .statusCheck false, .sleepFor 5,
          .restartCmd, .sleepFor 2, .statusCheck false, .sleepFor 5,
          .restartCmd, .sleepFor 2, .statusCheck true], .ok 3) :=
  ((restart_service_restart_wait_check_protocol (fun k => k == 2)).2.2.2.1)
    (by decide) (by decide) (by decide)

end SaltDemo
